import Mathlib

/-!
Verification of the wire/runtime codec layer of `trading-core-types`.

The repository declares zod wire schemas and field-by-field encode/decode
functions between a JSON "wire" form and an in-memory "runtime" form, in two
parallel TypeScript modules:

* `src/typescript/src/index.ts` — zod schemas with `.transform` decoders and
  `toWireX` encoders (embedded below in namespace `Idx`);
* `src/unnamed/part_002` — the serdes module with `encodeX`/`decodeX`
  functions (embedded below in namespace `Serdes`).

Modelling conventions:

* JSON numbers are rationals (`ℚ`); JSON strings are `String`.  `NaN` and the
  infinities have no JSON literal and are outside the model.
* A JavaScript `Date` stores an integral millisecond count; `new Date(ms)`
  truncates its numeric argument toward zero (`jsTrunc`), and `getTime`
  returns that integer.
* A JS object field holding `undefined` is indistinguishable on the JSON
  wire from an absent field, so optional fields are `Option` values and
  `undefined` is `none`.
* JS objects used as string-keyed records are association lists with
  distinct keys; `new Map(entries)` is `mapFromEntries` (insert with
  override, as the `Map` constructor does), `Object.entries` /
  `Object.fromEntries` are the identity on the association list.
-/

/-- A JSON primitive value, as seen by a zod field validator. -/
inductive JValue where
  | jstr (s : String)
  | jnum (q : ℚ)
  | jbool (b : Bool)
deriving DecidableEq, Repr

/-- JavaScript number-to-integer conversion used by the `Date` constructor:
truncation toward zero. -/
def jsTrunc (q : ℚ) : ℤ := if 0 ≤ q then ⌊q⌋ else ⌈q⌉

/-- A JavaScript `Date`: an integral count of milliseconds since the epoch. -/
structure JSDate where
  ms : ℤ
deriving DecidableEq, Repr

/-- `new Date(q)` for a numeric argument `q`. -/
def newDate (q : ℚ) : JSDate := ⟨jsTrunc q⟩

/-- `Date.prototype.getTime`, as the JSON number it is serialised to. -/
def JSDate.getTime (d : JSDate) : ℚ := (d.ms : ℚ)

/-- JS `Map.prototype.set`: override the value in place if the key exists,
otherwise append the entry. -/
def mapSet {α : Type} (m : List (String × α)) (k : String) (v : α) :
    List (String × α) :=
  if m.any (fun e => e.1 = k) then
    m.map (fun e => if e.1 = k then (k, v) else e)
  else
    m ++ [(k, v)]

/-- `new Map(entries)`: insert the entries in order, later duplicates
overriding earlier ones. -/
def mapFromEntries {α : Type} (l : List (String × α)) : List (String × α) :=
  l.foldl (fun m e => mapSet m e.1 e.2) []

/-- First-match lookup, as `Map.prototype.get`. -/
def mapGet {α : Type} (m : List (String × α)) (k : String) : Option α :=
  match m with
  | [] => none
  | e :: rest => if e.1 = k then some e.2 else mapGet rest k

-- ===========================================================================
-- Asset: wire and runtime shapes (identical in both modules)
-- ===========================================================================

/-- `AssetWire` — the validated output of `AssetWireSchema`. -/
structure AssetWire where
  symbol : String
  type : Option String
  name : Option String
  exchange : Option String
  currency : String
  lotSize : Option ℚ
  tickSize : Option ℚ
  validFrom : Option ℚ
  validUntil : Option ℚ
deriving DecidableEq, Repr

/-- The runtime `Asset` with native `Date` fields. -/
structure Asset where
  symbol : String
  type : Option String
  name : Option String
  exchange : Option String
  currency : String
  lotSize : Option ℚ
  tickSize : Option ℚ
  validFrom : Option JSDate
  validUntil : Option JSDate
deriving DecidableEq, Repr

namespace Idx

/-- The conditional `x ? new Date(x) : undefined` applied to a
possibly-absent wire number: JS truthiness maps both `undefined` and `0`
to `undefined`. -/
def dateIfTruthy (v : Option ℚ) : Option JSDate :=
  match v with
  | none => none
  | some t => if t = 0 then none else some (newDate t)

/-- The `.transform` of `AssetSchema` in `src/typescript/src/index.ts`. -/
def parseAsset (data : AssetWire) : Asset :=
  { symbol := data.symbol
    type := data.type
    name := data.name
    exchange := data.exchange
    currency := data.currency
    lotSize := data.lotSize
    tickSize := data.tickSize
    validFrom := dateIfTruthy data.validFrom
    validUntil := dateIfTruthy data.validUntil }

/-- `toWireAsset` in `src/typescript/src/index.ts`; `asset.validFrom?.getTime()`
is `Option.map getTime`. -/
def toWireAsset (asset : Asset) : AssetWire :=
  { symbol := asset.symbol
    type := asset.type
    name := asset.name
    exchange := asset.exchange
    currency := asset.currency
    lotSize := asset.lotSize
    tickSize := asset.tickSize
    validFrom := asset.validFrom.map JSDate.getTime
    validUntil := asset.validUntil.map JSDate.getTime }

end Idx

namespace Serdes

/-- `encodeAsset` in `src/unnamed/part_002`: fields are copied only when
`!== undefined`, dates via `dateToMs`. -/
def encodeAsset (asset : Asset) : AssetWire :=
  { symbol := asset.symbol
    currency := asset.currency
    type := asset.type
    name := asset.name
    exchange := asset.exchange
    lotSize := asset.lotSize
    tickSize := asset.tickSize
    validFrom := asset.validFrom.map JSDate.getTime
    validUntil := asset.validUntil.map JSDate.getTime }

/-- `decodeAsset` in `src/unnamed/part_002`: fields are copied only when
`!== undefined`, timestamps via `msToDate`. -/
def decodeAsset (parsed : AssetWire) : Asset :=
  { symbol := parsed.symbol
    currency := parsed.currency
    type := parsed.type
    name := parsed.name
    exchange := parsed.exchange
    lotSize := parsed.lotSize
    tickSize := parsed.tickSize
    validFrom := parsed.validFrom.map newDate
    validUntil := parsed.validUntil.map newDate }

end Serdes

-- ===========================================================================
-- Wire schema validation (zod `safeParse`): every field of an object schema
-- is checked and the issues of all failing fields are aggregated into one
-- structured error, each issue carrying the field path and a reason.
-- ===========================================================================

/-- One zod issue: the path of the violating field and a reason. -/
structure VErr where
  path : String
  reason : String
deriving DecidableEq, Repr

/-- The issue list contributed by one field check. -/
def errsOf {α : Type} : Except VErr α → List VErr
  | .ok _ => []
  | .error e => [e]

/-- `z.string()` on a required field. -/
def checkReqStr (p : String) : Option JValue → Except VErr String
  | some (.jstr s) => .ok s
  | some _ => .error ⟨p, "expected string"⟩
  | none => .error ⟨p, "required field missing"⟩

/-- `z.string().optional()`. -/
def checkOptStr (p : String) : Option JValue → Except VErr (Option String)
  | none => .ok none
  | some (.jstr s) => .ok (some s)
  | some _ => .error ⟨p, "expected string"⟩

/-- `z.number()` on a required field. -/
def checkReqNum (p : String) : Option JValue → Except VErr ℚ
  | some (.jnum q) => .ok q
  | some _ => .error ⟨p, "expected number"⟩
  | none => .error ⟨p, "required field missing"⟩

/-- `z.number().optional()`. -/
def checkOptNum (p : String) : Option JValue → Except VErr (Option ℚ)
  | none => .ok none
  | some (.jnum q) => .ok (some q)
  | some _ => .error ⟨p, "expected number"⟩

/-- `z.enum([...])` on a required field: exact, case-sensitive membership. -/
def checkEnum (p : String) (allowed : List String) :
    Option JValue → Except VErr String
  | some (.jstr s) =>
      if allowed.contains s then .ok s else .error ⟨p, "invalid enum value"⟩
  | some _ => .error ⟨p, "expected string"⟩
  | none => .error ⟨p, "required field missing"⟩

-- ===========================================================================
-- Asset validation (`AssetWireSchema.safeParse`)
-- ===========================================================================

/-- The raw JSON object offered to `AssetWireSchema`: each declared field is
either absent or some JSON primitive (unknown extra keys are ignored by zod
and therefore not modelled). -/
structure AssetRaw where
  symbol : Option JValue
  type : Option JValue
  name : Option JValue
  exchange : Option JValue
  currency : Option JValue
  lotSize : Option JValue
  tickSize : Option JValue
  validFrom : Option JValue
  validUntil : Option JValue
deriving DecidableEq, Repr

/-- The declared fields of `AssetWireSchema`. -/
inductive AssetField where
  | symbol | type | name | exchange | currency
  | lotSize | tickSize | validFrom | validUntil
deriving DecidableEq, Repr

def AssetField.path : AssetField → String
  | .symbol => "symbol"
  | .type => "type"
  | .name => "name"
  | .exchange => "exchange"
  | .currency => "currency"
  | .lotSize => "lotSize"
  | .tickSize => "tickSize"
  | .validFrom => "validFrom"
  | .validUntil => "validUntil"

def AssetField.all : List AssetField :=
  [.symbol, .type, .name, .exchange, .currency,
   .lotSize, .tickSize, .validFrom, .validUntil]

/-- The issues contributed by one field of `AssetWireSchema`. -/
def assetFieldErrs (r : AssetRaw) : AssetField → List VErr
  | .symbol => errsOf (checkReqStr "symbol" r.symbol)
  | .type => errsOf (checkOptStr "type" r.type)
  | .name => errsOf (checkOptStr "name" r.name)
  | .exchange => errsOf (checkOptStr "exchange" r.exchange)
  | .currency => errsOf (checkReqStr "currency" r.currency)
  | .lotSize => errsOf (checkOptNum "lotSize" r.lotSize)
  | .tickSize => errsOf (checkOptNum "tickSize" r.tickSize)
  | .validFrom => errsOf (checkOptNum "validFrom" r.validFrom)
  | .validUntil => errsOf (checkOptNum "validUntil" r.validUntil)

/-- All issues of `AssetWireSchema.safeParse`, in field declaration order. -/
def assetErrs (r : AssetRaw) : List VErr :=
  (AssetField.all.map (assetFieldErrs r)).flatten

/-- `AssetWireSchema.safeParse`: validate every field, aggregate all issues;
succeed with the typed wire value only when no field failed. -/
def validateAsset (r : AssetRaw) : Except (List VErr) AssetWire :=
  if (assetErrs r).isEmpty then
    match checkReqStr "symbol" r.symbol, checkOptStr "type" r.type,
        checkOptStr "name" r.name, checkOptStr "exchange" r.exchange,
        checkReqStr "currency" r.currency, checkOptNum "lotSize" r.lotSize,
        checkOptNum "tickSize" r.tickSize, checkOptNum "validFrom" r.validFrom,
        checkOptNum "validUntil" r.validUntil with
    | .ok s, .ok t, .ok n, .ok ex, .ok c, .ok lo, .ok ti, .ok vf, .ok vu =>
        .ok ⟨s, t, n, ex, c, lo, ti, vf, vu⟩
    | _, _, _, _, _, _, _, _, _ => .error (assetErrs r)
  else
    .error (assetErrs r)

-- ===========================================================================
-- Order types: the discriminated side/effect pairing
-- ===========================================================================

/-- The `side ∈ {BUY, SELL}` enumeration. -/
inductive Side where
  | buy | sell
deriving DecidableEq, Repr

def Side.str : Side → String
  | .buy => "BUY"
  | .sell => "SELL"

/-- The `effect` values legal under `side: "BUY"`. -/
inductive BuyEffect where
  | openLong | closeShort
deriving DecidableEq, Repr

/-- The `effect` values legal under `side: "SELL"`. -/
inductive SellEffect where
  | closeLong | openShort
deriving DecidableEq, Repr

/-- The type denoted by `OrderActionWire = z.discriminatedUnion("side", ...)`:
each side carries only its own restricted effect enumeration, so an illegal
pair is unrepresentable. -/
inductive OrderAction where
  | buy (effect : BuyEffect)
  | sell (effect : SellEffect)
deriving DecidableEq, Repr

/-- The wire string of the `side` field of an `OrderAction` value. -/
def sideStr : OrderAction → String
  | .buy _ => "BUY"
  | .sell _ => "SELL"

/-- The wire string of the `effect` field of an `OrderAction` value. -/
def effectStr : OrderAction → String
  | .buy .openLong => "OPEN_LONG"
  | .buy .closeShort => "CLOSE_SHORT"
  | .sell .closeLong => "CLOSE_LONG"
  | .sell .openShort => "OPEN_SHORT"

/-- The flat four-value `effect` enumeration used by `PartialOrderWireSchema`
(and the `PartialOrder` interface of `src/unnamed/part_002`), which does not
constrain it against `side`. -/
inductive Effect4 where
  | openLong | closeShort | closeLong | openShort
deriving DecidableEq, Repr

def Effect4.str : Effect4 → String
  | .openLong => "OPEN_LONG"
  | .closeShort => "CLOSE_SHORT"
  | .closeLong => "CLOSE_LONG"
  | .openShort => "OPEN_SHORT"

/-- `type ∈ {MARKET, LIMIT, STOP, STOP_LIMIT}`. -/
inductive OrderType where
  | market | limit | stop | stopLimit
deriving DecidableEq, Repr

/-- Validation of `z.discriminatedUnion("side", ...)`: the discriminator
selects which effect enumeration is checked; an unrecognised discriminator is
a single issue at `side`. -/
def checkAction (side effect : Option JValue) :
    Except (List VErr) OrderAction :=
  match side with
  | some (.jstr "BUY") =>
      match checkEnum "effect" ["OPEN_LONG", "CLOSE_SHORT"] effect with
      | .ok s => .ok (.buy (if s = "OPEN_LONG" then .openLong else .closeShort))
      | .error e => .error [e]
  | some (.jstr "SELL") =>
      match checkEnum "effect" ["CLOSE_LONG", "OPEN_SHORT"] effect with
      | .ok s => .ok (.sell (if s = "CLOSE_LONG" then .closeLong else .openShort))
      | .error e => .error [e]
  | _ => .error [⟨"side", "invalid discriminator value"⟩]

/-- `z.enum(["MARKET", "LIMIT", "STOP", "STOP_LIMIT"])` as a typed view. -/
def checkOrderType (p : String) : Option JValue → Except VErr OrderType
  | some (.jstr "MARKET") => .ok .market
  | some (.jstr "LIMIT") => .ok .limit
  | some (.jstr "STOP") => .ok .stop
  | some (.jstr "STOP_LIMIT") => .ok .stopLimit
  | some _ => .error ⟨p, "invalid enum value"⟩
  | none => .error ⟨p, "required field missing"⟩

-- ===========================================================================
-- Order
-- ===========================================================================

/-- The raw JSON object offered to `OrderWireSchema`. -/
structure OrderRaw where
  side : Option JValue
  effect : Option JValue
  id : Option JValue
  symbol : Option JValue
  type : Option JValue
  quantity : Option JValue
  price : Option JValue
  stopPrice : Option JValue
  created : Option JValue
deriving DecidableEq, Repr

/-- `OrderWire = z.infer<typeof OrderWireSchema>`. -/
structure OrderWire where
  action : OrderAction
  id : String
  symbol : String
  type : OrderType
  quantity : ℚ
  price : Option ℚ
  stopPrice : Option ℚ
  created : Option ℚ
deriving DecidableEq, Repr

/-- All issues of `OrderWireSchema.safeParse`: the discriminated-union part
and the `.and`-intersected object part are both validated and their issues
aggregated. -/
def orderErrs (r : OrderRaw) : List VErr :=
  (match checkAction r.side r.effect with
   | .ok _ => []
   | .error es => es) ++
  errsOf (checkReqStr "id" r.id) ++
  errsOf (checkReqStr "symbol" r.symbol) ++
  errsOf (checkOrderType "type" r.type) ++
  errsOf (checkReqNum "quantity" r.quantity) ++
  errsOf (checkOptNum "price" r.price) ++
  errsOf (checkOptNum "stopPrice" r.stopPrice) ++
  errsOf (checkOptNum "created" r.created)

/-- `OrderWireSchema.safeParse`. -/
def validateOrder (r : OrderRaw) : Except (List VErr) OrderWire :=
  if (orderErrs r).isEmpty then
    match checkAction r.side r.effect, checkReqStr "id" r.id,
        checkReqStr "symbol" r.symbol, checkOrderType "type" r.type,
        checkReqNum "quantity" r.quantity, checkOptNum "price" r.price,
        checkOptNum "stopPrice" r.stopPrice, checkOptNum "created" r.created with
    | .ok a, .ok i, .ok s, .ok t, .ok q, .ok p, .ok sp, .ok c =>
        .ok ⟨a, i, s, t, q, p, sp, c⟩
    | _, _, _, _, _, _, _, _ => .error (orderErrs r)
  else
    .error (orderErrs r)

-- ===========================================================================
-- OrderState
-- ===========================================================================

/-- The raw JSON object offered to `OrderStateWireSchema`. -/
structure OrderStateRaw where
  side : Option JValue
  effect : Option JValue
  id : Option JValue
  symbol : Option JValue
  type : Option JValue
  quantity : Option JValue
  price : Option JValue
  stopPrice : Option JValue
  created : Option JValue
  filledQuantity : Option JValue
  remainingQuantity : Option JValue
  status : Option JValue
  modified : Option JValue
deriving DecidableEq, Repr

/-- `OrderStateWire = z.infer<typeof OrderStateWireSchema>`; the six status
literals stay strings, validated by `checkEnum`. -/
structure OrderStateWire where
  action : OrderAction
  id : String
  symbol : String
  type : OrderType
  quantity : ℚ
  price : Option ℚ
  stopPrice : Option ℚ
  created : Option ℚ
  filledQuantity : ℚ
  remainingQuantity : ℚ
  status : String
  modified : ℚ
deriving DecidableEq, Repr

def orderStatusList : List String :=
  ["PENDING", "OPEN", "PARTIAL", "FILLED", "CANCELLED", "REJECT"]

/-- All issues of `OrderStateWireSchema.safeParse`. -/
def orderStateErrs (r : OrderStateRaw) : List VErr :=
  (match checkAction r.side r.effect with
   | .ok _ => []
   | .error es => es) ++
  errsOf (checkReqStr "id" r.id) ++
  errsOf (checkReqStr "symbol" r.symbol) ++
  errsOf (checkOrderType "type" r.type) ++
  errsOf (checkReqNum "quantity" r.quantity) ++
  errsOf (checkOptNum "price" r.price) ++
  errsOf (checkOptNum "stopPrice" r.stopPrice) ++
  errsOf (checkOptNum "created" r.created) ++
  errsOf (checkReqNum "filledQuantity" r.filledQuantity) ++
  errsOf (checkReqNum "remainingQuantity" r.remainingQuantity) ++
  errsOf (checkEnum "status" orderStatusList r.status) ++
  errsOf (checkReqNum "modified" r.modified)

/-- `OrderStateWireSchema.safeParse`. -/
def validateOrderState (r : OrderStateRaw) : Except (List VErr) OrderStateWire :=
  if (orderStateErrs r).isEmpty then
    match checkAction r.side r.effect, checkReqStr "id" r.id,
        checkReqStr "symbol" r.symbol, checkOrderType "type" r.type,
        checkReqNum "quantity" r.quantity, checkOptNum "price" r.price,
        checkOptNum "stopPrice" r.stopPrice, checkOptNum "created" r.created,
        checkReqNum "filledQuantity" r.filledQuantity,
        checkReqNum "remainingQuantity" r.remainingQuantity,
        checkEnum "status" orderStatusList r.status,
        checkReqNum "modified" r.modified with
    | .ok a, .ok i, .ok s, .ok t, .ok q, .ok p, .ok sp, .ok c, .ok fq, .ok rq,
        .ok st, .ok m =>
        .ok ⟨a, i, s, t, q, p, sp, c, fq, rq, st, m⟩
    | _, _, _, _, _, _, _, _, _, _, _, _ => .error (orderStateErrs r)
  else
    .error (orderStateErrs r)

-- ===========================================================================
-- Fill
-- ===========================================================================

/-- The raw JSON object offered to `FillWireSchema`. -/
structure FillRaw where
  side : Option JValue
  effect : Option JValue
  id : Option JValue
  orderId : Option JValue
  symbol : Option JValue
  quantity : Option JValue
  price : Option JValue
  commission : Option JValue
  created : Option JValue
deriving DecidableEq, Repr

/-- `FillWire = z.infer<typeof FillWireSchema>`. -/
structure FillWire where
  action : OrderAction
  id : String
  orderId : String
  symbol : String
  quantity : ℚ
  price : ℚ
  commission : ℚ
  created : ℚ
deriving DecidableEq, Repr

/-- All issues of `FillWireSchema.safeParse`. -/
def fillErrs (r : FillRaw) : List VErr :=
  (match checkAction r.side r.effect with
   | .ok _ => []
   | .error es => es) ++
  errsOf (checkReqStr "id" r.id) ++
  errsOf (checkReqStr "orderId" r.orderId) ++
  errsOf (checkReqStr "symbol" r.symbol) ++
  errsOf (checkReqNum "quantity" r.quantity) ++
  errsOf (checkReqNum "price" r.price) ++
  errsOf (checkReqNum "commission" r.commission) ++
  errsOf (checkReqNum "created" r.created)

/-- `FillWireSchema.safeParse`. -/
def validateFill (r : FillRaw) : Except (List VErr) FillWire :=
  if (fillErrs r).isEmpty then
    match checkAction r.side r.effect, checkReqStr "id" r.id,
        checkReqStr "orderId" r.orderId, checkReqStr "symbol" r.symbol,
        checkReqNum "quantity" r.quantity, checkReqNum "price" r.price,
        checkReqNum "commission" r.commission, checkReqNum "created" r.created with
    | .ok a, .ok i, .ok oi, .ok s, .ok q, .ok p, .ok cm, .ok c =>
        .ok ⟨a, i, oi, s, q, p, cm, c⟩
    | _, _, _, _, _, _, _, _ => .error (fillErrs r)
  else
    .error (fillErrs r)

-- ===========================================================================
-- PartialOrder: side and effect are independent optional enumerations
-- ===========================================================================

/-- `z.enum(["BUY", "SELL"]).optional()` as a typed view. -/
def checkOptSide (p : String) : Option JValue → Except VErr (Option Side)
  | none => .ok none
  | some (.jstr "BUY") => .ok (some .buy)
  | some (.jstr "SELL") => .ok (some .sell)
  | some _ => .error ⟨p, "invalid enum value"⟩

/-- The optional flat four-value effect enumeration of
`PartialOrderWireSchema` as a typed view. -/
def checkOptEffect4 (p : String) : Option JValue → Except VErr (Option Effect4)
  | none => .ok none
  | some (.jstr "OPEN_LONG") => .ok (some .openLong)
  | some (.jstr "CLOSE_SHORT") => .ok (some .closeShort)
  | some (.jstr "CLOSE_LONG") => .ok (some .closeLong)
  | some (.jstr "OPEN_SHORT") => .ok (some .openShort)
  | some _ => .error ⟨p, "invalid enum value"⟩

/-- `OrderType.optional()` as a typed view. -/
def checkOptOrderType (p : String) : Option JValue → Except VErr (Option OrderType)
  | none => .ok none
  | some (.jstr "MARKET") => .ok (some .market)
  | some (.jstr "LIMIT") => .ok (some .limit)
  | some (.jstr "STOP") => .ok (some .stop)
  | some (.jstr "STOP_LIMIT") => .ok (some .stopLimit)
  | some _ => .error ⟨p, "invalid enum value"⟩

/-- The raw JSON object offered to `PartialOrderWireSchema`. -/
structure PartialOrderRaw where
  id : Option JValue
  side : Option JValue
  effect : Option JValue
  symbol : Option JValue
  type : Option JValue
  quantity : Option JValue
  price : Option JValue
  stopPrice : Option JValue
  created : Option JValue
deriving DecidableEq, Repr

/-- `PartialOrderWire = z.infer<typeof PartialOrderWireSchema>`: `side` and
`effect` are independently optional, with no cross-field constraint. -/
structure PartialOrderWire where
  id : String
  side : Option Side
  effect : Option Effect4
  symbol : Option String
  type : Option OrderType
  quantity : Option ℚ
  price : Option ℚ
  stopPrice : Option ℚ
  created : Option ℚ
deriving DecidableEq, Repr

/-- All issues of `PartialOrderWireSchema.safeParse`: each field validated on
its own, `effect` against the union of all four literals. -/
def partialOrderErrs (r : PartialOrderRaw) : List VErr :=
  errsOf (checkReqStr "id" r.id) ++
  errsOf (checkOptSide "side" r.side) ++
  errsOf (checkOptEffect4 "effect" r.effect) ++
  errsOf (checkOptStr "symbol" r.symbol) ++
  errsOf (checkOptOrderType "type" r.type) ++
  errsOf (checkOptNum "quantity" r.quantity) ++
  errsOf (checkOptNum "price" r.price) ++
  errsOf (checkOptNum "stopPrice" r.stopPrice) ++
  errsOf (checkOptNum "created" r.created)

/-- `PartialOrderWireSchema.safeParse`. -/
def validatePartialOrder (r : PartialOrderRaw) :
    Except (List VErr) PartialOrderWire :=
  if (partialOrderErrs r).isEmpty then
    match checkReqStr "id" r.id, checkOptSide "side" r.side,
        checkOptEffect4 "effect" r.effect, checkOptStr "symbol" r.symbol,
        checkOptOrderType "type" r.type, checkOptNum "quantity" r.quantity,
        checkOptNum "price" r.price, checkOptNum "stopPrice" r.stopPrice,
        checkOptNum "created" r.created with
    | .ok i, .ok sd, .ok ef, .ok s, .ok t, .ok q, .ok p, .ok sp, .ok c =>
        .ok ⟨i, sd, ef, s, t, q, p, sp, c⟩
    | _, _, _, _, _, _, _, _, _ => .error (partialOrderErrs r)
  else
    .error (partialOrderErrs r)

-- ===========================================================================
-- MarketQuote
-- ===========================================================================

/-- The raw JSON object offered to `MarketQuoteWireSchema`. -/
structure MarketQuoteRaw where
  symbol : Option JValue
  price : Option JValue
  volume : Option JValue
  totalVolume : Option JValue
  timestamp : Option JValue
  bid : Option JValue
  bidVol : Option JValue
  ask : Option JValue
  askVol : Option JValue
  preClose : Option JValue
deriving DecidableEq, Repr

/-- `MarketQuoteWire = z.infer<typeof MarketQuoteWireSchema>`. -/
structure MarketQuoteWire where
  symbol : String
  price : ℚ
  volume : Option ℚ
  totalVolume : Option ℚ
  timestamp : ℚ
  bid : Option ℚ
  bidVol : Option ℚ
  ask : Option ℚ
  askVol : Option ℚ
  preClose : Option ℚ
deriving DecidableEq, Repr

/-- The runtime `MarketQuote` with a native timestamp. -/
structure MarketQuote where
  symbol : String
  price : ℚ
  volume : Option ℚ
  totalVolume : Option ℚ
  timestamp : JSDate
  bid : Option ℚ
  bidVol : Option ℚ
  ask : Option ℚ
  askVol : Option ℚ
  preClose : Option ℚ
deriving DecidableEq, Repr

/-- All issues of `MarketQuoteWireSchema.safeParse`. -/
def marketQuoteErrs (r : MarketQuoteRaw) : List VErr :=
  errsOf (checkReqStr "symbol" r.symbol) ++
  errsOf (checkReqNum "price" r.price) ++
  errsOf (checkOptNum "volume" r.volume) ++
  errsOf (checkOptNum "totalVolume" r.totalVolume) ++
  errsOf (checkReqNum "timestamp" r.timestamp) ++
  errsOf (checkOptNum "bid" r.bid) ++
  errsOf (checkOptNum "bidVol" r.bidVol) ++
  errsOf (checkOptNum "ask" r.ask) ++
  errsOf (checkOptNum "askVol" r.askVol) ++
  errsOf (checkOptNum "preClose" r.preClose)

/-- `MarketQuoteWireSchema.safeParse`. -/
def validateMarketQuote (r : MarketQuoteRaw) :
    Except (List VErr) MarketQuoteWire :=
  if (marketQuoteErrs r).isEmpty then
    match checkReqStr "symbol" r.symbol, checkReqNum "price" r.price,
        checkOptNum "volume" r.volume, checkOptNum "totalVolume" r.totalVolume,
        checkReqNum "timestamp" r.timestamp, checkOptNum "bid" r.bid,
        checkOptNum "bidVol" r.bidVol, checkOptNum "ask" r.ask,
        checkOptNum "askVol" r.askVol, checkOptNum "preClose" r.preClose with
    | .ok s, .ok p, .ok v, .ok tv, .ok t, .ok b, .ok bv, .ok a, .ok av, .ok pc =>
        .ok ⟨s, p, v, tv, t, b, bv, a, av, pc⟩
    | _, _, _, _, _, _, _, _, _, _ => .error (marketQuoteErrs r)
  else
    .error (marketQuoteErrs r)

-- ===========================================================================
-- MarketBar
-- ===========================================================================

/-- The fixed `interval` enumeration of `MarketBarInterval`. -/
def intervalList : List String :=
  ["1m", "5m", "15m", "30m", "1h", "2h", "4h", "1d", "1w", "1M"]

/-- The raw JSON object offered to `MarketBarWireSchema`. -/
structure MarketBarRaw where
  symbol : Option JValue
  openv : Option JValue
  high : Option JValue
  low : Option JValue
  close : Option JValue
  volume : Option JValue
  timestamp : Option JValue
  interval : Option JValue
deriving DecidableEq, Repr

/-- `MarketBarWire = z.infer<typeof MarketBarWireSchema>` (`openv` stands for
the wire field `open`, which is a reserved word here). -/
structure MarketBarWire where
  symbol : String
  openv : ℚ
  high : ℚ
  low : ℚ
  close : ℚ
  volume : ℚ
  timestamp : ℚ
  interval : String
deriving DecidableEq, Repr

/-- The runtime `MarketBar`. -/
structure MarketBar where
  symbol : String
  openv : ℚ
  high : ℚ
  low : ℚ
  close : ℚ
  volume : ℚ
  timestamp : JSDate
  interval : String
deriving DecidableEq, Repr

/-- All issues of `MarketBarWireSchema.safeParse`. -/
def marketBarErrs (r : MarketBarRaw) : List VErr :=
  errsOf (checkReqStr "symbol" r.symbol) ++
  errsOf (checkReqNum "open" r.openv) ++
  errsOf (checkReqNum "high" r.high) ++
  errsOf (checkReqNum "low" r.low) ++
  errsOf (checkReqNum "close" r.close) ++
  errsOf (checkReqNum "volume" r.volume) ++
  errsOf (checkReqNum "timestamp" r.timestamp) ++
  errsOf (checkEnum "interval" intervalList r.interval)

/-- `MarketBarWireSchema.safeParse`. -/
def validateMarketBar (r : MarketBarRaw) : Except (List VErr) MarketBarWire :=
  if (marketBarErrs r).isEmpty then
    match checkReqStr "symbol" r.symbol, checkReqNum "open" r.openv,
        checkReqNum "high" r.high, checkReqNum "low" r.low,
        checkReqNum "close" r.close, checkReqNum "volume" r.volume,
        checkReqNum "timestamp" r.timestamp,
        checkEnum "interval" intervalList r.interval with
    | .ok s, .ok o, .ok h, .ok l, .ok c, .ok v, .ok t, .ok iv =>
        .ok ⟨s, o, h, l, c, v, t, iv⟩
    | _, _, _, _, _, _, _, _ => .error (marketBarErrs r)
  else
    .error (marketBarErrs r)

-- ===========================================================================
-- MarketSnapshot and Position shapes
-- ===========================================================================

/-- `MarketSnapshotWire`: `price` is a JSON object keyed by symbol, modelled
as an association list with distinct keys. -/
structure MarketSnapshotWire where
  price : List (String × ℚ)
  timestamp : ℚ
deriving DecidableEq, Repr

/-- The runtime `MarketSnapshot`: `price` is a `Map`. -/
structure MarketSnapshot where
  price : List (String × ℚ)
  timestamp : JSDate
deriving DecidableEq, Repr

structure LongPositionLot where
  quantity : ℚ
  price : ℚ
  totalCost : ℚ
deriving DecidableEq, Repr

structure LongPositionWire where
  quantity : ℚ
  totalCost : ℚ
  realisedPnL : ℚ
  lots : List LongPositionLot
  modified : ℚ
deriving DecidableEq, Repr

structure LongPosition where
  quantity : ℚ
  totalCost : ℚ
  realisedPnL : ℚ
  lots : List LongPositionLot
  modified : JSDate
deriving DecidableEq, Repr

structure ShortPositionLot where
  quantity : ℚ
  price : ℚ
  totalProceeds : ℚ
deriving DecidableEq, Repr

structure ShortPositionWire where
  quantity : ℚ
  totalProceeds : ℚ
  realisedPnL : ℚ
  lots : List ShortPositionLot
  modified : ℚ
deriving DecidableEq, Repr

structure ShortPosition where
  quantity : ℚ
  totalProceeds : ℚ
  realisedPnL : ℚ
  lots : List ShortPositionLot
  modified : JSDate
deriving DecidableEq, Repr

/-- `PositionWire`: `long` and `short` are optional JSON objects keyed by
symbol. -/
structure PositionWire where
  cash : ℚ
  long : Option (List (String × LongPositionWire))
  short : Option (List (String × ShortPositionWire))
  totalCommission : ℚ
  realisedPnL : ℚ
  modified : ℚ
deriving DecidableEq, Repr

/-- The runtime `Position`: `long` and `short` are optional `Map`s. -/
structure Position where
  cash : ℚ
  long : Option (List (String × LongPosition))
  short : Option (List (String × ShortPosition))
  totalCommission : ℚ
  realisedPnL : ℚ
  modified : JSDate
deriving DecidableEq, Repr

-- ===========================================================================
-- Runtime order-family shapes (shared by both modules)
-- ===========================================================================

/-- The runtime `Order`. -/
structure Order where
  action : OrderAction
  id : String
  symbol : String
  type : OrderType
  quantity : ℚ
  price : Option ℚ
  stopPrice : Option ℚ
  created : Option JSDate
deriving DecidableEq, Repr

/-- The runtime `PartialOrder` (the `PartialOrder` interface of
`src/unnamed/part_002` and `z.infer<typeof PartialOrderSchema>` of
`src/typescript/src/index.ts`): `side` and `effect` are independent.  Named
`PartialOrderRT` because `PartialOrder` is taken by the order-theory class. -/
structure PartialOrderRT where
  id : String
  side : Option Side
  effect : Option Effect4
  symbol : Option String
  type : Option OrderType
  quantity : Option ℚ
  price : Option ℚ
  stopPrice : Option ℚ
  created : Option JSDate
deriving DecidableEq, Repr

/-- The runtime `OrderState`. -/
structure OrderState where
  action : OrderAction
  id : String
  symbol : String
  type : OrderType
  quantity : ℚ
  price : Option ℚ
  stopPrice : Option ℚ
  created : Option JSDate
  filledQuantity : ℚ
  remainingQuantity : ℚ
  status : String
  modified : JSDate
deriving DecidableEq, Repr

/-- The runtime `Fill`. -/
structure Fill where
  action : OrderAction
  id : String
  orderId : String
  symbol : String
  quantity : ℚ
  price : ℚ
  commission : ℚ
  created : JSDate
deriving DecidableEq, Repr

-- ===========================================================================
-- `src/typescript/src/index.ts`: `.transform` decoders and `toWireX` encoders
-- ===========================================================================

namespace Idx

/-- The `.transform` of `MarketSnapshotSchema`:
`price: new Map(Object.entries(data.price))`. -/
def parseMarketSnapshot (data : MarketSnapshotWire) : MarketSnapshot :=
  { price := mapFromEntries data.price
    timestamp := newDate data.timestamp }

/-- `toWireMarketSnapshot`: `price: Object.fromEntries(snapshot.price)`. -/
def toWireMarketSnapshot (snapshot : MarketSnapshot) : MarketSnapshotWire :=
  { price := snapshot.price
    timestamp := snapshot.timestamp.getTime }

/-- The `.transform` of `MarketQuoteSchema`: the required `timestamp` becomes
a `Date` unconditionally. -/
def parseMarketQuote (data : MarketQuoteWire) : MarketQuote :=
  { symbol := data.symbol
    price := data.price
    volume := data.volume
    totalVolume := data.totalVolume
    timestamp := newDate data.timestamp
    bid := data.bid
    bidVol := data.bidVol
    ask := data.ask
    askVol := data.askVol
    preClose := data.preClose }

/-- `toWireMarketQuote`. -/
def toWireMarketQuote (quote : MarketQuote) : MarketQuoteWire :=
  { symbol := quote.symbol
    price := quote.price
    volume := quote.volume
    totalVolume := quote.totalVolume
    timestamp := quote.timestamp.getTime
    bid := quote.bid
    bidVol := quote.bidVol
    ask := quote.ask
    askVol := quote.askVol
    preClose := quote.preClose }

/-- The `.transform` of `MarketBarSchema`. -/
def parseMarketBar (data : MarketBarWire) : MarketBar :=
  { symbol := data.symbol
    openv := data.openv
    high := data.high
    low := data.low
    close := data.close
    volume := data.volume
    timestamp := newDate data.timestamp
    interval := data.interval }

/-- `toWireMarketBar`. -/
def toWireMarketBar (bar : MarketBar) : MarketBarWire :=
  { symbol := bar.symbol
    openv := bar.openv
    high := bar.high
    low := bar.low
    close := bar.close
    volume := bar.volume
    timestamp := bar.timestamp.getTime
    interval := bar.interval }

/-- The `.transform` of `OrderSchema`:
`{...data, created: data.created ? new Date(data.created) : undefined}`. -/
def parseOrder (data : OrderWire) : Order :=
  { action := data.action
    id := data.id
    symbol := data.symbol
    type := data.type
    quantity := data.quantity
    price := data.price
    stopPrice := data.stopPrice
    created := dateIfTruthy data.created }

/-- `toWireOrder`: `{...order, created: order.created?.getTime()}`. -/
def toWireOrder (order : Order) : OrderWire :=
  { action := order.action
    id := order.id
    symbol := order.symbol
    type := order.type
    quantity := order.quantity
    price := order.price
    stopPrice := order.stopPrice
    created := order.created.map JSDate.getTime }

/-- The `.transform` of `PartialOrderSchema`. -/
def parsePartialOrder (data : PartialOrderWire) : PartialOrderRT :=
  { id := data.id
    side := data.side
    effect := data.effect
    symbol := data.symbol
    type := data.type
    quantity := data.quantity
    price := data.price
    stopPrice := data.stopPrice
    created := dateIfTruthy data.created }

/-- `toWirePartialOrder`. -/
def toWirePartialOrder (order : PartialOrderRT) : PartialOrderWire :=
  { id := order.id
    side := order.side
    effect := order.effect
    symbol := order.symbol
    type := order.type
    quantity := order.quantity
    price := order.price
    stopPrice := order.stopPrice
    created := order.created.map JSDate.getTime }

/-- The `.transform` of `OrderStateSchema`: optional `created` through the
truthiness conditional, required `modified` unconditionally. -/
def parseOrderState (data : OrderStateWire) : OrderState :=
  { action := data.action
    id := data.id
    symbol := data.symbol
    type := data.type
    quantity := data.quantity
    price := data.price
    stopPrice := data.stopPrice
    created := dateIfTruthy data.created
    filledQuantity := data.filledQuantity
    remainingQuantity := data.remainingQuantity
    status := data.status
    modified := newDate data.modified }

/-- `toWireOrderState`. -/
def toWireOrderState (state : OrderState) : OrderStateWire :=
  { action := state.action
    id := state.id
    symbol := state.symbol
    type := state.type
    quantity := state.quantity
    price := state.price
    stopPrice := state.stopPrice
    created := state.created.map JSDate.getTime
    filledQuantity := state.filledQuantity
    remainingQuantity := state.remainingQuantity
    status := state.status
    modified := state.modified.getTime }

/-- The `.transform` of `FillSchema`: the required `created` becomes a `Date`
unconditionally. -/
def parseFill (data : FillWire) : Fill :=
  { action := data.action
    id := data.id
    orderId := data.orderId
    symbol := data.symbol
    quantity := data.quantity
    price := data.price
    commission := data.commission
    created := newDate data.created }

/-- `toWireFill`. -/
def toWireFill (fill : Fill) : FillWire :=
  { action := fill.action
    id := fill.id
    orderId := fill.orderId
    symbol := fill.symbol
    quantity := fill.quantity
    price := fill.price
    commission := fill.commission
    created := fill.created.getTime }

/-- The `.transform` of `LongPositionSchema`. -/
def parseLongPosition (data : LongPositionWire) : LongPosition :=
  { quantity := data.quantity
    totalCost := data.totalCost
    realisedPnL := data.realisedPnL
    lots := data.lots
    modified := newDate data.modified }

/-- `toWireLongPosition`. -/
def toWireLongPosition (pos : LongPosition) : LongPositionWire :=
  { quantity := pos.quantity
    totalCost := pos.totalCost
    realisedPnL := pos.realisedPnL
    lots := pos.lots
    modified := pos.modified.getTime }

/-- The `.transform` of `ShortPositionSchema`. -/
def parseShortPosition (data : ShortPositionWire) : ShortPosition :=
  { quantity := data.quantity
    totalProceeds := data.totalProceeds
    realisedPnL := data.realisedPnL
    lots := data.lots
    modified := newDate data.modified }

/-- `toWireShortPosition`. -/
def toWireShortPosition (pos : ShortPosition) : ShortPositionWire :=
  { quantity := pos.quantity
    totalProceeds := pos.totalProceeds
    realisedPnL := pos.realisedPnL
    lots := pos.lots
    modified := pos.modified.getTime }

/-- The `.transform` of `PositionSchema`: each optional record becomes a
`Map` built from its entries with recursively parsed values (a JS object is
always truthy, so the `data.long ? ... : undefined` conditional is exactly
the presence test). -/
def parsePosition (data : PositionWire) : Position :=
  { cash := data.cash
    long := data.long.map (fun l =>
      mapFromEntries (l.map (fun e => (e.1, parseLongPosition e.2))))
    short := data.short.map (fun l =>
      mapFromEntries (l.map (fun e => (e.1, parseShortPosition e.2))))
    totalCommission := data.totalCommission
    realisedPnL := data.realisedPnL
    modified := newDate data.modified }

/-- `toWirePosition`. -/
def toWirePosition (pos : Position) : PositionWire :=
  { cash := pos.cash
    long := pos.long.map (fun m => m.map (fun e => (e.1, toWireLongPosition e.2)))
    short := pos.short.map (fun m => m.map (fun e => (e.1, toWireShortPosition e.2)))
    totalCommission := pos.totalCommission
    realisedPnL := pos.realisedPnL
    modified := pos.modified.getTime }

end Idx

-- ===========================================================================
-- `src/unnamed/part_002`: `encodeX` / `decodeX`
-- ===========================================================================

namespace Serdes

/-- `decodeMarketSnapshot`. -/
def decodeMarketSnapshot (parsed : MarketSnapshotWire) : MarketSnapshot :=
  { price := mapFromEntries parsed.price
    timestamp := newDate parsed.timestamp }

/-- `encodeMarketSnapshot`. -/
def encodeMarketSnapshot (snapshot : MarketSnapshot) : MarketSnapshotWire :=
  { price := snapshot.price
    timestamp := snapshot.timestamp.getTime }

/-- `decodeMarketQuote`: optional fields copied only when `!== undefined`. -/
def decodeMarketQuote (parsed : MarketQuoteWire) : MarketQuote :=
  { symbol := parsed.symbol
    price := parsed.price
    timestamp := newDate parsed.timestamp
    volume := parsed.volume
    totalVolume := parsed.totalVolume
    bid := parsed.bid
    bidVol := parsed.bidVol
    ask := parsed.ask
    askVol := parsed.askVol
    preClose := parsed.preClose }

/-- `encodeMarketQuote`. -/
def encodeMarketQuote (quote : MarketQuote) : MarketQuoteWire :=
  { symbol := quote.symbol
    price := quote.price
    timestamp := quote.timestamp.getTime
    volume := quote.volume
    totalVolume := quote.totalVolume
    bid := quote.bid
    bidVol := quote.bidVol
    ask := quote.ask
    askVol := quote.askVol
    preClose := quote.preClose }

/-- `decodeMarketBar`. -/
def decodeMarketBar (parsed : MarketBarWire) : MarketBar :=
  { symbol := parsed.symbol
    openv := parsed.openv
    high := parsed.high
    low := parsed.low
    close := parsed.close
    volume := parsed.volume
    timestamp := newDate parsed.timestamp
    interval := parsed.interval }

/-- `encodeMarketBar`. -/
def encodeMarketBar (bar : MarketBar) : MarketBarWire :=
  { symbol := bar.symbol
    openv := bar.openv
    high := bar.high
    low := bar.low
    close := bar.close
    volume := bar.volume
    timestamp := bar.timestamp.getTime
    interval := bar.interval }

/-- `decodeOrder`: optional fields copied when `!== undefined`; the branch on
`parsed.side` only refines the TypeScript type of the already-paired
`side`/`effect` and carries both over unchanged. -/
def decodeOrder (parsed : OrderWire) : Order :=
  { id := parsed.id
    symbol := parsed.symbol
    type := parsed.type
    quantity := parsed.quantity
    price := parsed.price
    stopPrice := parsed.stopPrice
    created := parsed.created.map newDate
    action := parsed.action }

/-- `encodeOrder`. -/
def encodeOrder (order : Order) : OrderWire :=
  { id := order.id
    symbol := order.symbol
    type := order.type
    quantity := order.quantity
    price := order.price
    stopPrice := order.stopPrice
    created := order.created.map JSDate.getTime
    action := order.action }

/-- `decodePartialOrder`. -/
def decodePartialOrder (parsed : PartialOrderWire) : PartialOrderRT :=
  { id := parsed.id
    side := parsed.side
    effect := parsed.effect
    symbol := parsed.symbol
    type := parsed.type
    quantity := parsed.quantity
    price := parsed.price
    stopPrice := parsed.stopPrice
    created := parsed.created.map newDate }

/-- `encodePartialOrder`: `side` and `effect` are copied independently
whenever present. -/
def encodePartialOrder (order : PartialOrderRT) : PartialOrderWire :=
  { id := order.id
    side := order.side
    effect := order.effect
    symbol := order.symbol
    type := order.type
    quantity := order.quantity
    price := order.price
    stopPrice := order.stopPrice
    created := order.created.map JSDate.getTime }

/-- `decodeOrderState`. -/
def decodeOrderState (parsed : OrderStateWire) : OrderState :=
  { id := parsed.id
    symbol := parsed.symbol
    type := parsed.type
    quantity := parsed.quantity
    filledQuantity := parsed.filledQuantity
    remainingQuantity := parsed.remainingQuantity
    status := parsed.status
    modified := newDate parsed.modified
    price := parsed.price
    stopPrice := parsed.stopPrice
    created := parsed.created.map newDate
    action := parsed.action }

/-- `encodeOrderState`. -/
def encodeOrderState (state : OrderState) : OrderStateWire :=
  { id := state.id
    symbol := state.symbol
    type := state.type
    quantity := state.quantity
    filledQuantity := state.filledQuantity
    remainingQuantity := state.remainingQuantity
    status := state.status
    modified := state.modified.getTime
    price := state.price
    stopPrice := state.stopPrice
    created := state.created.map JSDate.getTime
    action := state.action }

/-- `decodeFill`: both branches build the same record; the branch only
refines the TypeScript effect type. -/
def decodeFill (parsed : FillWire) : Fill :=
  { action := parsed.action
    id := parsed.id
    orderId := parsed.orderId
    symbol := parsed.symbol
    quantity := parsed.quantity
    price := parsed.price
    commission := parsed.commission
    created := newDate parsed.created }

/-- `encodeFill`. -/
def encodeFill (fill : Fill) : FillWire :=
  { action := fill.action
    id := fill.id
    orderId := fill.orderId
    symbol := fill.symbol
    quantity := fill.quantity
    price := fill.price
    commission := fill.commission
    created := fill.created.getTime }

/-- `decodeLongPosition`. -/
def decodeLongPosition (parsed : LongPositionWire) : LongPosition :=
  { quantity := parsed.quantity
    totalCost := parsed.totalCost
    realisedPnL := parsed.realisedPnL
    lots := parsed.lots
    modified := newDate parsed.modified }

/-- `encodeLongPosition`. -/
def encodeLongPosition (pos : LongPosition) : LongPositionWire :=
  { quantity := pos.quantity
    totalCost := pos.totalCost
    realisedPnL := pos.realisedPnL
    lots := pos.lots
    modified := pos.modified.getTime }

/-- `decodeShortPosition`. -/
def decodeShortPosition (parsed : ShortPositionWire) : ShortPosition :=
  { quantity := parsed.quantity
    totalProceeds := parsed.totalProceeds
    realisedPnL := parsed.realisedPnL
    lots := parsed.lots
    modified := newDate parsed.modified }

/-- `encodeShortPosition`. -/
def encodeShortPosition (pos : ShortPosition) : ShortPositionWire :=
  { quantity := pos.quantity
    totalProceeds := pos.totalProceeds
    realisedPnL := pos.realisedPnL
    lots := pos.lots
    modified := pos.modified.getTime }

/-- `decodePosition`: the optional `long`/`short` records become `Map`s with
recursively decoded values. -/
def decodePosition (parsed : PositionWire) : Position :=
  { cash := parsed.cash
    totalCommission := parsed.totalCommission
    realisedPnL := parsed.realisedPnL
    modified := newDate parsed.modified
    long := parsed.long.map (fun l =>
      mapFromEntries (l.map (fun e => (e.1, decodeLongPosition e.2))))
    short := parsed.short.map (fun l =>
      mapFromEntries (l.map (fun e => (e.1, decodeShortPosition e.2)))) }

/-- `encodePosition`. -/
def encodePosition (pos : Position) : PositionWire :=
  { cash := pos.cash
    totalCommission := pos.totalCommission
    realisedPnL := pos.realisedPnL
    modified := pos.modified.getTime
    long := pos.long.map (fun m => m.map (fun e => (e.1, encodeLongPosition e.2)))
    short := pos.short.map (fun m => m.map (fun e => (e.1, encodeShortPosition e.2))) }

end Serdes

-- ===========================================================================
-- Optional-field presence observations for the omission contract
-- ===========================================================================

/-- The optional fields of Asset. -/
inductive AssetOptField where
  | type | name | exchange | lotSize | tickSize | validFrom | validUntil
deriving DecidableEq, Repr

def AssetWire.optAbsent (w : AssetWire) : AssetOptField → Prop
  | .type => w.type = none
  | .name => w.name = none
  | .exchange => w.exchange = none
  | .lotSize => w.lotSize = none
  | .tickSize => w.tickSize = none
  | .validFrom => w.validFrom = none
  | .validUntil => w.validUntil = none

def Asset.optAbsent (r : Asset) : AssetOptField → Prop
  | .type => r.type = none
  | .name => r.name = none
  | .exchange => r.exchange = none
  | .lotSize => r.lotSize = none
  | .tickSize => r.tickSize = none
  | .validFrom => r.validFrom = none
  | .validUntil => r.validUntil = none

/-- The optional fields of MarketQuote. -/
inductive QuoteOptField where
  | volume | totalVolume | bid | bidVol | ask | askVol | preClose
deriving DecidableEq, Repr

def MarketQuoteWire.optAbsent (w : MarketQuoteWire) : QuoteOptField → Prop
  | .volume => w.volume = none
  | .totalVolume => w.totalVolume = none
  | .bid => w.bid = none
  | .bidVol => w.bidVol = none
  | .ask => w.ask = none
  | .askVol => w.askVol = none
  | .preClose => w.preClose = none

def MarketQuote.optAbsent (r : MarketQuote) : QuoteOptField → Prop
  | .volume => r.volume = none
  | .totalVolume => r.totalVolume = none
  | .bid => r.bid = none
  | .bidVol => r.bidVol = none
  | .ask => r.ask = none
  | .askVol => r.askVol = none
  | .preClose => r.preClose = none

/-- The optional fields of Order. -/
inductive OrderOptField where
  | price | stopPrice | created
deriving DecidableEq, Repr

def OrderWire.optAbsent (w : OrderWire) : OrderOptField → Prop
  | .price => w.price = none
  | .stopPrice => w.stopPrice = none
  | .created => w.created = none

def Order.optAbsent (r : Order) : OrderOptField → Prop
  | .price => r.price = none
  | .stopPrice => r.stopPrice = none
  | .created => r.created = none

/-- The optional fields of PartialOrder. -/
inductive PartialOptField where
  | side | effect | symbol | type | quantity | price | stopPrice | created
deriving DecidableEq, Repr

def PartialOrderWire.optAbsent (w : PartialOrderWire) : PartialOptField → Prop
  | .side => w.side = none
  | .effect => w.effect = none
  | .symbol => w.symbol = none
  | .type => w.type = none
  | .quantity => w.quantity = none
  | .price => w.price = none
  | .stopPrice => w.stopPrice = none
  | .created => w.created = none

def PartialOrderRT.optAbsent (r : PartialOrderRT) : PartialOptField → Prop
  | .side => r.side = none
  | .effect => r.effect = none
  | .symbol => r.symbol = none
  | .type => r.type = none
  | .quantity => r.quantity = none
  | .price => r.price = none
  | .stopPrice => r.stopPrice = none
  | .created => r.created = none

def OrderStateWire.optAbsent (w : OrderStateWire) : OrderOptField → Prop
  | .price => w.price = none
  | .stopPrice => w.stopPrice = none
  | .created => w.created = none

def OrderState.optAbsent (r : OrderState) : OrderOptField → Prop
  | .price => r.price = none
  | .stopPrice => r.stopPrice = none
  | .created => r.created = none

/-- The optional fields of Position. -/
inductive PositionOptField where
  | long | short
deriving DecidableEq, Repr

def PositionWire.optAbsent (w : PositionWire) : PositionOptField → Prop
  | .long => w.long = none
  | .short => w.short = none

def Position.optAbsent (r : Position) : PositionOptField → Prop
  | .long => r.long = none
  | .short => r.short = none

-- ===========================================================================
-- Supporting lemmas
-- ===========================================================================

theorem jsTrunc_intCast (n : ℤ) : jsTrunc (n : ℚ) = n := by
  unfold jsTrunc
  split <;> simp

theorem getTime_newDate_intCast (n : ℤ) : (newDate (n : ℚ)).getTime = (n : ℚ) := by
  simp [newDate, JSDate.getTime, jsTrunc_intCast]

theorem mem_errsOf {α : Type} {c : Except VErr α} {e : VErr} :
    e ∈ errsOf c ↔ c = .error e := by
  cases c <;> simp [errsOf, eq_comm]

theorem errsOf_eq_nil {α : Type} {c : Except VErr α} :
    errsOf c = [] ↔ c.isOk = true := by
  cases c <;> simp [errsOf, Except.isOk, Except.toBool]

theorem checkReqStr_error_path {p : String} {v : Option JValue} {e : VErr}
    (h : checkReqStr p v = .error e) : e.path = p := by
  unfold checkReqStr at h
  split at h <;> first
    | (subst h; rfl)
    | (injection h with h; subst h; rfl)
    | exact absurd h (by simp)

theorem checkOptStr_error_path {p : String} {v : Option JValue} {e : VErr}
    (h : checkOptStr p v = .error e) : e.path = p := by
  unfold checkOptStr at h
  split at h <;> first
    | (subst h; rfl)
    | (injection h with h; subst h; rfl)
    | exact absurd h (by simp)

theorem checkReqNum_error_path {p : String} {v : Option JValue} {e : VErr}
    (h : checkReqNum p v = .error e) : e.path = p := by
  unfold checkReqNum at h
  split at h <;> first
    | (subst h; rfl)
    | (injection h with h; subst h; rfl)
    | exact absurd h (by simp)

theorem checkOptNum_error_path {p : String} {v : Option JValue} {e : VErr}
    (h : checkOptNum p v = .error e) : e.path = p := by
  unfold checkOptNum at h
  split at h <;> first
    | (subst h; rfl)
    | (injection h with h; subst h; rfl)
    | exact absurd h (by simp)

theorem checkEnum_error_path {p : String} {al : List String} {v : Option JValue}
    {e : VErr} (h : checkEnum p al v = .error e) : e.path = p := by
  unfold checkEnum at h
  split at h <;> (try split at h) <;> first
    | (subst h; rfl)
    | (injection h with h; subst h; rfl)
    | exact absurd h (by simp)

/-- `new Map(entries)` with an accumulator whose keys are disjoint from the
(fresh, duplicate-free) keys of the remaining entries just appends them. -/
theorem foldl_mapSet_eq_append {α : Type} (l : List (String × α)) :
    ∀ acc : List (String × α),
      (acc.map Prod.fst ++ l.map Prod.fst).Nodup →
      l.foldl (fun m e => mapSet m e.1 e.2) acc = acc ++ l := by
  induction l with
  | nil => intro acc _; simp
  | cons e rest ih =>
      intro acc h
      have hk : e.1 ∉ acc.map Prod.fst := by
        have := (List.nodup_append.mp h).2.2
        intro hmem
        exact this hmem (by simp)
      have hany : acc.any (fun x => x.1 = e.1) = false := by
        simp only [List.any_eq_false, decide_eq_true_eq]
        intro x hx hx1
        exact hk (by simpa [hx1] using List.mem_map_of_mem Prod.fst hx)
      have hset : mapSet acc e.1 e.2 = acc ++ [(e.1, e.2)] := by
        simp [mapSet, hany]
      have hre : ((acc ++ [(e.1, e.2)]).map Prod.fst ++ rest.map Prod.fst).Nodup := by
        simpa using h
      calc (e :: rest).foldl (fun m x => mapSet m x.1 x.2) acc
      _ = rest.foldl (fun m x => mapSet m x.1 x.2) (acc ++ [(e.1, e.2)]) := by
            rw [List.foldl_cons, hset]
      _ = (acc ++ [(e.1, e.2)]) ++ rest := ih _ hre
      _ = acc ++ e :: rest := by simp

/-- Rebuilding a JS object's entries into a `Map` preserves the entry list
verbatim when the keys are distinct. -/
theorem mapFromEntries_eq_self {α : Type} {l : List (String × α)}
    (h : (l.map Prod.fst).Nodup) : mapFromEntries l = l := by
  simpa using foldl_mapSet_eq_append l [] (by simpa using h)

theorem map_fst_map_entry {α β : Type} (l : List (String × α)) (f : α → β) :
    (l.map (fun e => (e.1, f e.2))).map Prod.fst = l.map Prod.fst := by
  simp [List.map_map, Function.comp]

/-- Millisecond integers survive a `Date` round trip. -/
theorem opt_int_roundtrip {o : Option ℚ} (h : ∀ t ∈ o, ∃ n : ℤ, t = (n : ℚ)) :
    (o.map newDate).map JSDate.getTime = o := by
  cases o with
  | none => rfl
  | some t =>
      obtain ⟨n, rfl⟩ := h t rfl
      simp [getTime_newDate_intCast]

/-- A runtime `Date` survives an encode/decode round trip exactly. -/
theorem opt_date_roundtrip (o : Option JSDate) :
    (o.map JSDate.getTime).map newDate = o := by
  cases o with
  | none => rfl
  | some d => simp [newDate, JSDate.getTime, jsTrunc_intCast]

theorem dateIfTruthy_getTime {o : Option ℚ}
    (h : ∀ t ∈ o, (∃ n : ℤ, t = (n : ℚ)) ∧ t ≠ 0) :
    (Idx.dateIfTruthy o).map JSDate.getTime = o := by
  cases o with
  | none => rfl
  | some t =>
      obtain ⟨⟨n, rfl⟩, hne⟩ := h t rfl
      simp [Idx.dateIfTruthy, hne, getTime_newDate_intCast]

theorem dateIfTruthy_of_getTime {o : Option JSDate}
    (h : ∀ d ∈ o, d.ms ≠ 0) :
    Idx.dateIfTruthy (o.map JSDate.getTime) = o := by
  cases o with
  | none => rfl
  | some d =>
      have hne : (d.ms : ℚ) ≠ 0 := by
        exact_mod_cast h d rfl
      simp [Idx.dateIfTruthy, JSDate.getTime, hne, newDate, jsTrunc_intCast]

/-- The discriminated-union check on two string fields succeeds exactly on
the four legal pairs. -/
theorem checkAction_jstr_isOk (sd ef : String) :
    (checkAction (some (.jstr sd)) (some (.jstr ef))).isOk = true ↔
      (sd = "BUY" ∧ (ef = "OPEN_LONG" ∨ ef = "CLOSE_SHORT")) ∨
      (sd = "SELL" ∧ (ef = "CLOSE_LONG" ∨ ef = "OPEN_SHORT")) := by
  by_cases hb : sd = "BUY"
  · subst hb
    by_cases h1 : ef = "OPEN_LONG"
    · subst h1; simp [checkAction, checkEnum, Except.isOk, Except.toBool]
    · by_cases h2 : ef = "CLOSE_SHORT"
      · subst h2; simp [checkAction, checkEnum, Except.isOk, Except.toBool]
      · simp [checkAction, checkEnum, List.elem_iff, h1, h2,
          Except.isOk, Except.toBool]
  · by_cases hs : sd = "SELL"
    · subst hs
      by_cases h1 : ef = "CLOSE_LONG"
      · subst h1; simp [checkAction, checkEnum, Except.isOk, Except.toBool]
      · by_cases h2 : ef = "OPEN_SHORT"
        · subst h2; simp [checkAction, checkEnum, Except.isOk, Except.toBool]
        · simp [checkAction, checkEnum, List.elem_iff, h1, h2, hb,
            Except.isOk, Except.toBool]
    · simp only [checkAction]
      split
      · simp_all
      · simp_all
      · simp [Except.isOk, Except.toBool, hb, hs]

/-- A failed discriminated-union check always contributes at least one
issue. -/
theorem checkAction_error_ne_nil {sd ef : Option JValue} {es : List VErr}
    (h : checkAction sd ef = .error es) : es ≠ [] := by
  unfold checkAction at h
  split at h <;> (try split at h) <;> first
    | (subst h; simp)
    | (injection h with h; subst h; simp)
    | exact absurd h (by simp)

/-- With every non-action field well-formed, `OrderWireSchema` succeeds
exactly when the discriminated side/effect check does. -/
theorem validateOrder_isOk_action (sd ef : Option JValue) (i sym : String)
    (q : ℚ) :
    (validateOrder ⟨sd, ef, some (.jstr i), some (.jstr sym),
      some (.jstr "LIMIT"), some (.jnum q), none, none, none⟩).isOk =
      (checkAction sd ef).isOk := by
  cases hA : checkAction sd ef with
  | ok a =>
      simp [validateOrder, orderErrs, hA, checkReqStr, checkOrderType,
        checkReqNum, checkOptNum, errsOf, Except.isOk, Except.toBool]
  | error es =>
      have hne := checkAction_error_ne_nil hA
      simp [validateOrder, orderErrs, hA, checkReqStr, checkOrderType,
        checkReqNum, checkOptNum, errsOf, Except.isOk, Except.toBool, hne]

/-- With every non-action field well-formed, `OrderStateWireSchema` succeeds
exactly when the discriminated side/effect check does. -/
theorem validateOrderState_isOk_action (sd ef : Option JValue) (i sym : String)
    (q fq rq m : ℚ) :
    (validateOrderState ⟨sd, ef, some (.jstr i), some (.jstr sym),
      some (.jstr "LIMIT"), some (.jnum q), none, none, none,
      some (.jnum fq), some (.jnum rq), some (.jstr "OPEN"),
      some (.jnum m)⟩).isOk = (checkAction sd ef).isOk := by
  cases hA : checkAction sd ef with
  | ok a =>
      simp [validateOrderState, orderStateErrs, hA, checkReqStr, checkOrderType,
        checkReqNum, checkOptNum, checkEnum, orderStatusList, errsOf,
        Except.isOk, Except.toBool]
  | error es =>
      have hne := checkAction_error_ne_nil hA
      simp [validateOrderState, orderStateErrs, hA, checkReqStr, checkOrderType,
        checkReqNum, checkOptNum, checkEnum, orderStatusList, errsOf,
        Except.isOk, Except.toBool, hne]

/-- With every non-action field well-formed, `FillWireSchema` succeeds
exactly when the discriminated side/effect check does. -/
theorem validateFill_isOk_action (sd ef : Option JValue) (i oi sym : String)
    (q p cm c : ℚ) :
    (validateFill ⟨sd, ef, some (.jstr i), some (.jstr oi), some (.jstr sym),
      some (.jnum q), some (.jnum p), some (.jnum cm),
      some (.jnum c)⟩).isOk = (checkAction sd ef).isOk := by
  cases hA : checkAction sd ef with
  | ok a =>
      simp [validateFill, fillErrs, hA, checkReqStr, checkReqNum, errsOf,
        Except.isOk, Except.toBool]
  | error es =>
      have hne := checkAction_error_ne_nil hA
      simp [validateFill, fillErrs, hA, checkReqStr, checkReqNum, errsOf,
        Except.isOk, Except.toBool, hne]

/-- Claim C2: validation of Order, OrderState and Fill enforces the
side/effect discriminant: with all other required fields well-formed, a wire
input with `side == "BUY"` validates exactly when `effect` is `OPEN_LONG` or
`CLOSE_SHORT`, and with `side == "SELL"` exactly when `effect` is
`CLOSE_LONG` or `OPEN_SHORT`; in particular `BUY`/`CLOSE_LONG` fails and
`BUY`/`OPEN_LONG` succeeds. -/
theorem order_discriminant_enforcement (sd ef i oi sym : String)
    (q fq rq m p cm c : ℚ) :
    ((validateOrder ⟨some (.jstr sd), some (.jstr ef), some (.jstr i),
        some (.jstr sym), some (.jstr "LIMIT"), some (.jnum q),
        none, none, none⟩).isOk = true ↔
      (sd = "BUY" ∧ (ef = "OPEN_LONG" ∨ ef = "CLOSE_SHORT")) ∨
      (sd = "SELL" ∧ (ef = "CLOSE_LONG" ∨ ef = "OPEN_SHORT"))) ∧
    ((validateOrderState ⟨some (.jstr sd), some (.jstr ef), some (.jstr i),
        some (.jstr sym), some (.jstr "LIMIT"), some (.jnum q), none, none,
        none, some (.jnum fq), some (.jnum rq), some (.jstr "OPEN"),
        some (.jnum m)⟩).isOk = true ↔
      (sd = "BUY" ∧ (ef = "OPEN_LONG" ∨ ef = "CLOSE_SHORT")) ∨
      (sd = "SELL" ∧ (ef = "CLOSE_LONG" ∨ ef = "OPEN_SHORT"))) ∧
    ((validateFill ⟨some (.jstr sd), some (.jstr ef), some (.jstr i),
        some (.jstr oi), some (.jstr sym), some (.jnum q), some (.jnum p),
        some (.jnum cm), some (.jnum c)⟩).isOk = true ↔
      (sd = "BUY" ∧ (ef = "OPEN_LONG" ∨ ef = "CLOSE_SHORT")) ∨
      (sd = "SELL" ∧ (ef = "CLOSE_LONG" ∨ ef = "OPEN_SHORT"))) ∧
    (validateOrder ⟨some (.jstr "BUY"), some (.jstr "CLOSE_LONG"),
        some (.jstr "o1"), some (.jstr "TSLA"), some (.jstr "LIMIT"),
        some (.jnum 100), none, none, none⟩).isOk = false ∧
    (validateOrder ⟨some (.jstr "BUY"), some (.jstr "OPEN_LONG"),
        some (.jstr "o1"), some (.jstr "TSLA"), some (.jstr "LIMIT"),
        some (.jnum 100), none, none, none⟩).isOk = true := by
  refine ⟨?_, ?_, ?_, rfl, rfl⟩
  · rw [validateOrder_isOk_action]
    exact checkAction_jstr_isOk sd ef
  · rw [validateOrderState_isOk_action]
    exact checkAction_jstr_isOk sd ef
  · rw [validateFill_isOk_action]
    exact checkAction_jstr_isOk sd ef

/-- With every other field well-formed, `MarketBarWireSchema` succeeds
exactly when the `interval` string is in the fixed enumeration. -/
theorem validateMarketBar_isOk (sym iv : String) (o h l c v t : ℚ) :
    (validateMarketBar ⟨some (.jstr sym), some (.jnum o), some (.jnum h),
      some (.jnum l), some (.jnum c), some (.jnum v), some (.jnum t),
      some (.jstr iv)⟩).isOk = intervalList.contains iv := by
  cases hc : intervalList.contains iv with
  | false =>
      have hm : iv ∉ intervalList := fun hmem =>
        absurd ((List.elem_iff.mpr hmem).symm.trans hc) (by simp)
      simp [validateMarketBar, marketBarErrs, checkReqStr, checkReqNum,
        checkEnum, hm, errsOf, Except.isOk, Except.toBool]
  | true =>
      have hm : iv ∈ intervalList := List.elem_iff.mp hc
      simp [validateMarketBar, marketBarErrs, checkReqStr, checkReqNum,
        checkEnum, hm, errsOf, Except.isOk, Except.toBool]

/-- Claim C6: MarketBar validation succeeds only when `interval` is one of
the ten enumerated strings (exact, case-sensitive); any other string,
including `"3h"`, fails even with every other field well-formed. -/
theorem marketbar_interval_enum (sym iv : String) (o h l c v t : ℚ) :
    ((validateMarketBar ⟨some (.jstr sym), some (.jnum o), some (.jnum h),
        some (.jnum l), some (.jnum c), some (.jnum v), some (.jnum t),
        some (.jstr iv)⟩).isOk = true ↔
      iv ∈ ["1m", "5m", "15m", "30m", "1h", "2h", "4h", "1d", "1w", "1M"]) ∧
    (validateMarketBar ⟨some (.jstr sym), some (.jnum o), some (.jnum h),
        some (.jnum l), some (.jnum c), some (.jnum v), some (.jnum t),
        some (.jstr "3h")⟩).isOk = false := by
  constructor
  · rw [validateMarketBar_isOk]
    exact List.elem_iff
  · rw [validateMarketBar_isOk]
    rfl

/-- Claim C8: numeric wire fields accept every representable number — the
validators impose no range, sign or integrality constraint, and timestamp
fields are plain epoch-millisecond numbers, so negative or implausible
values validate; shown for `MarketQuoteWireSchema` and `AssetWireSchema`
over arbitrary rational field values. -/
theorem numeric_fields_unconstrained (sym cur : String)
    (p v tv t b bv a av pc lot tick vf vu : ℚ) :
    validateMarketQuote ⟨some (.jstr sym), some (.jnum p), some (.jnum v),
        some (.jnum tv), some (.jnum t), some (.jnum b), some (.jnum bv),
        some (.jnum a), some (.jnum av), some (.jnum pc)⟩ =
      .ok ⟨sym, p, some v, some tv, t, some b, some bv, some a, some av,
        some pc⟩ ∧
    validateAsset ⟨some (.jstr sym), none, none, none, some (.jstr cur),
        some (.jnum lot), some (.jnum tick), some (.jnum vf),
        some (.jnum vu)⟩ =
      .ok ⟨sym, none, none, none, cur, some lot, some tick, some vf,
        some vu⟩ ∧
    (validateMarketQuote ⟨some (.jstr "X"), some (.jnum (-250.5)),
        none, none, some (.jnum (-86400000)), none, none, none, none,
        none⟩).isOk = true := by
  exact ⟨rfl, rfl, rfl⟩

theorem AssetField.path_injective : ∀ f g : AssetField, f.path = g.path → f = g := by
  intro f g
  cases f <;> cases g <;> simp [AssetField.path]

theorem AssetField.mem_all (f : AssetField) : f ∈ AssetField.all := by
  cases f <;> simp [AssetField.all]

theorem mem_assetFieldErrs_path {r : AssetRaw} {f : AssetField} {e : VErr}
    (h : e ∈ assetFieldErrs r f) : e.path = f.path := by
  cases f <;>
    (simp only [assetFieldErrs] at h
     rw [mem_errsOf] at h) <;>
    first
      | exact checkReqStr_error_path h
      | exact checkOptStr_error_path h
      | exact checkOptNum_error_path h

theorem validateAsset_error {r : AssetRaw} {es : List VErr}
    (h : validateAsset r = .error es) : es = assetErrs r := by
  unfold validateAsset at h
  split at h
  · split at h
    · exact absurd h (by simp)
    · injection h with h
      exact h.symm
  · injection h with h
    exact h.symm

/-- Claim C7: a failed validation reports every violating field in one pass:
when `AssetWireSchema.safeParse` fails, the structured error holds an entry
tagged with a field's path exactly when that field's own check failed, so an
input with several violating fields gets one tagged entry per violation
rather than only the first. -/
theorem validation_reports_all_violations (r : AssetRaw) (es : List VErr)
    (h : validateAsset r = .error es) (f : AssetField) :
    assetFieldErrs r f ≠ [] ↔ ∃ e ∈ es, e.path = f.path := by
  obtain rfl := validateAsset_error h
  constructor
  · intro hne
    obtain ⟨e, he⟩ := List.exists_mem_of_ne_nil _ hne
    refine ⟨e, ?_, mem_assetFieldErrs_path he⟩
    unfold assetErrs
    rw [List.mem_flatten]
    exact ⟨assetFieldErrs r f, List.mem_map_of_mem _ (AssetField.mem_all f), he⟩
  · rintro ⟨e, hmem, hpath⟩
    unfold assetErrs at hmem
    rw [List.mem_flatten] at hmem
    obtain ⟨l, hl, hel⟩ := hmem
    rw [List.mem_map] at hl
    obtain ⟨g, _, rfl⟩ := hl
    have hg := mem_assetFieldErrs_path hel
    obtain rfl := AssetField.path_injective g f (hg ▸ hpath)
    intro hnil
    rw [hnil] at hel
    exact absurd hel (List.not_mem_nil e)

/-- Witness for the one-pass error report: an input whose `symbol` has the
wrong primitive type and whose `currency` is missing yields an error that
tags both fields. -/
theorem validation_reports_all_violations_witness :
    (∃ e ∈ ([⟨"symbol", "expected string"⟩,
             ⟨"currency", "required field missing"⟩] : List VErr),
       e.path = AssetField.path .symbol) ∧
    (∃ e ∈ ([⟨"symbol", "expected string"⟩,
             ⟨"currency", "required field missing"⟩] : List VErr),
       e.path = AssetField.path .currency) := by
  constructor
  · exact (validation_reports_all_violations
      ⟨some (.jnum 5), none, none, none, none, none, none, none, none⟩
      _ rfl .symbol).mp (by decide)
  · exact (validation_reports_all_violations
      ⟨some (.jnum 5), none, none, none, none, none, none, none, none⟩
      _ rfl .currency).mp (by decide)

/-- Claim C1 counterexample: a valid wire Asset whose optional `validFrom`
carries the value `0` does not survive `AssetSchema` decode followed by
`toWireAsset` — the truthiness conditional drops the epoch-zero timestamp. -/
theorem asset_roundtrip_zero_counterexample :
    Idx.toWireAsset (Idx.parseAsset
      ⟨"AAA", none, none, none, "USD", none, none, some 0, none⟩) ≠
      ⟨"AAA", none, none, none, "USD", none, none, some 0, none⟩ := by
  decide

/-- Claim C1 amended: round trips hold with the epoch-zero (and fractional)
timestamps excepted on the transform path — `encodeAsset ∘ decodeAsset` is
the identity on wire Assets whose present timestamps are integral (zero
allowed), `decodeAsset ∘ encodeAsset` is the identity on all runtime Assets,
while `toWireAsset ∘ AssetSchema-parse` is the identity only when present
wire timestamps are integral and nonzero, and `parse ∘ toWireAsset` is the
identity on runtime Assets whose present dates are not epoch-zero. -/
theorem asset_roundtrip_amended :
    (∀ w : AssetWire,
      (∀ t ∈ w.validFrom, ∃ n : ℤ, t = (n : ℚ)) →
      (∀ t ∈ w.validUntil, ∃ n : ℤ, t = (n : ℚ)) →
      Serdes.encodeAsset (Serdes.decodeAsset w) = w) ∧
    (∀ r : Asset, Serdes.decodeAsset (Serdes.encodeAsset r) = r) ∧
    (∀ w : AssetWire,
      (∀ t ∈ w.validFrom, (∃ n : ℤ, t = (n : ℚ)) ∧ t ≠ 0) →
      (∀ t ∈ w.validUntil, (∃ n : ℤ, t = (n : ℚ)) ∧ t ≠ 0) →
      Idx.toWireAsset (Idx.parseAsset w) = w) ∧
    (∀ r : Asset,
      (∀ d ∈ r.validFrom, d.ms ≠ 0) → (∀ d ∈ r.validUntil, d.ms ≠ 0) →
      Idx.parseAsset (Idx.toWireAsset r) = r) := by
  refine ⟨?_, ?_, ?_, ?_⟩
  · intro w h1 h2
    have e1 := opt_int_roundtrip h1
    have e2 := opt_int_roundtrip h2
    cases w
    simp_all [Serdes.encodeAsset, Serdes.decodeAsset]
  · intro r
    have e1 := opt_date_roundtrip r.validFrom
    have e2 := opt_date_roundtrip r.validUntil
    cases r
    simp_all [Serdes.encodeAsset, Serdes.decodeAsset]
  · intro w h1 h2
    have e1 := dateIfTruthy_getTime h1
    have e2 := dateIfTruthy_getTime h2
    cases w
    simp_all [Idx.parseAsset, Idx.toWireAsset]
  · intro r h1 h2
    have e1 := dateIfTruthy_of_getTime h1
    have e2 := dateIfTruthy_of_getTime h2
    cases r
    simp_all [Idx.parseAsset, Idx.toWireAsset]

/-- Witness for the amended round trip at concrete inputs: a nonzero integer
timestamp survives the transform path, and the serdes path round-trips even
the zero timestamp. -/
theorem asset_roundtrip_amended_witness :
    Idx.toWireAsset (Idx.parseAsset
      ⟨"AAA", none, none, none, "USD", none, none, some 5, none⟩) =
      ⟨"AAA", none, none, none, "USD", none, none, some 5, none⟩ ∧
    Serdes.encodeAsset (Serdes.decodeAsset
      ⟨"AAA", none, none, none, "USD", none, none, some 0, none⟩) =
      ⟨"AAA", none, none, none, "USD", none, none, some 0, none⟩ := by
  constructor
  · refine asset_roundtrip_amended.2.2.1 _ ?_ ?_
    · intro t ht
      simp only [Option.mem_def, Option.some.injEq] at ht
      subst ht
      exact ⟨⟨5, by norm_num⟩, by norm_num⟩
    · intro t ht
      exact absurd ht (by simp)
  · refine asset_roundtrip_amended.1 _ ?_ ?_
    · intro t ht
      simp only [Option.mem_def, Option.some.injEq] at ht
      subst ht
      exact ⟨0, by norm_num⟩
    · intro t ht
      exact absurd ht (by simp)

/-- Claim C9: in the transform-based schemas, an optional timestamp whose
wire value is the number `0` decodes to an absent runtime field, for
`AssetSchema` (`validFrom`, `validUntil`), `OrderSchema` (`created`) and
`PartialOrderSchema` (`created`). -/
theorem zero_timestamp_decodes_absent :
    (∀ w : AssetWire, w.validFrom = some 0 →
      (Idx.parseAsset w).validFrom = none) ∧
    (∀ w : AssetWire, w.validUntil = some 0 →
      (Idx.parseAsset w).validUntil = none) ∧
    (∀ w : OrderWire, w.created = some 0 →
      (Idx.parseOrder w).created = none) ∧
    (∀ w : PartialOrderWire, w.created = some 0 →
      (Idx.parsePartialOrder w).created = none) := by
  refine ⟨?_, ?_, ?_, ?_⟩ <;>
    (intro w h
     simp [Idx.parseAsset, Idx.parseOrder, Idx.parsePartialOrder,
       Idx.dateIfTruthy, h])

/-- Witness: concrete zero-timestamp wire values decode to absent fields. -/
theorem zero_timestamp_decodes_absent_witness :
    (Idx.parseAsset
      ⟨"AAA", none, none, none, "USD", none, none, some 0, none⟩).validFrom =
      none ∧
    (Idx.parseOrder ⟨.buy .openLong, "o1", "TSLA", .limit, 100, none, none,
      some 0⟩).created = none := by
  constructor
  · exact zero_timestamp_decodes_absent.1 _ rfl
  · exact zero_timestamp_decodes_absent.2.2.1 _ rfl

/-- Claim C10 counterexample: the two Asset decoders disagree on a valid
wire Asset whose `validFrom` is `0` — `decodeAsset` produces the epoch
instant, `AssetSchema` produces an absent field. -/
theorem decoder_disagreement_at_zero :
    Serdes.decodeAsset
      ⟨"AAA", none, none, none, "USD", none, none, some 0, none⟩ ≠
      Idx.parseAsset
        ⟨"AAA", none, none, none, "USD", none, none, some 0, none⟩ := by
  decide

/-- Claim C10 amended: the two implementations agree on every valid wire
Asset whose present optional timestamps are nonzero, and their encoders
agree on every runtime Asset. -/
theorem decoder_agreement_amended :
    (∀ w : AssetWire,
      (∀ t ∈ w.validFrom, t ≠ 0) → (∀ t ∈ w.validUntil, t ≠ 0) →
      Serdes.decodeAsset w = Idx.parseAsset w) ∧
    (∀ r : Asset, Serdes.encodeAsset r = Idx.toWireAsset r) := by
  constructor
  · intro w h1 h2
    have e1 : w.validFrom.map newDate = Idx.dateIfTruthy w.validFrom := by
      cases hv : w.validFrom with
      | none => rfl
      | some t => simp [Idx.dateIfTruthy, h1 t (by simp [hv])]
    have e2 : w.validUntil.map newDate = Idx.dateIfTruthy w.validUntil := by
      cases hv : w.validUntil with
      | none => rfl
      | some t => simp [Idx.dateIfTruthy, h2 t (by simp [hv])]
    cases w
    simp_all [Serdes.decodeAsset, Idx.parseAsset]
  · intro r
    rfl

/-- Witness: the decoders agree at a concrete nonzero timestamp. -/
theorem decoder_agreement_amended_witness :
    Serdes.decodeAsset
      ⟨"AAA", none, none, none, "USD", none, none, some 5, none⟩ =
      Idx.parseAsset
        ⟨"AAA", none, none, none, "USD", none, none, some 5, none⟩ := by
  refine decoder_agreement_amended.1 _ ?_ ?_
  · intro t ht
    simp only [Option.mem_def, Option.some.injEq] at ht
    subst ht
    norm_num
  · intro t ht
    exact absurd ht (by simp)

/-- Claim C3 counterexample: the PartialOrder validator does not reject an
input pairing `side: "BUY"` with `effect: "CLOSE_LONG"` — it accepts it,
because `PartialOrderWireSchema` validates `side` and `effect` as
independent enumerations. -/
theorem partial_order_accepts_illegal_pair :
    (validatePartialOrder ⟨some (.jstr "o1"), some (.jstr "BUY"),
      some (.jstr "CLOSE_LONG"), none, none, none, none, none,
      none⟩).isOk = true := rfl

/-- Claim C3 amended: the side/effect pairing is enforced for Order,
OrderState and Fill — their typed wire values can only carry a legal pair,
and their validators reject any other pair — but not for PartialOrder: its
validator accepts `side: "BUY"` with `effect: "CLOSE_LONG"`, and
`encodePartialOrder` passes such an independent pair through unchanged. -/
theorem side_effect_pairs_amended :
    (∀ a : OrderAction,
      (sideStr a = "BUY" ∧
        (effectStr a = "OPEN_LONG" ∨ effectStr a = "CLOSE_SHORT")) ∨
      (sideStr a = "SELL" ∧
        (effectStr a = "CLOSE_LONG" ∨ effectStr a = "OPEN_SHORT"))) ∧
    (∀ sd ef i oi sym : String, ∀ q p cm c fq rq m : ℚ,
      ¬((sd = "BUY" ∧ (ef = "OPEN_LONG" ∨ ef = "CLOSE_SHORT")) ∨
        (sd = "SELL" ∧ (ef = "CLOSE_LONG" ∨ ef = "OPEN_SHORT"))) →
      (validateOrder ⟨some (.jstr sd), some (.jstr ef), some (.jstr i),
        some (.jstr sym), some (.jstr "LIMIT"), some (.jnum q), none, none,
        none⟩).isOk = false ∧
      (validateOrderState ⟨some (.jstr sd), some (.jstr ef), some (.jstr i),
        some (.jstr sym), some (.jstr "LIMIT"), some (.jnum q), none, none,
        none, some (.jnum fq), some (.jnum rq), some (.jstr "OPEN"),
        some (.jnum m)⟩).isOk = false ∧
      (validateFill ⟨some (.jstr sd), some (.jstr ef), some (.jstr i),
        some (.jstr oi), some (.jstr sym), some (.jnum q), some (.jnum p),
        some (.jnum cm), some (.jnum c)⟩).isOk = false) ∧
    validatePartialOrder ⟨some (.jstr "p1"), some (.jstr "BUY"),
      some (.jstr "CLOSE_LONG"), none, none, none, none, none, none⟩ =
      .ok ⟨"p1", some .buy, some .closeLong, none, none, none, none, none,
        none⟩ ∧
    (Serdes.encodePartialOrder ⟨"p1", some .buy, some .closeLong, none, none,
      none, none, none, none⟩).side = some Side.buy ∧
    (Serdes.encodePartialOrder ⟨"p1", some .buy, some .closeLong, none, none,
      none, none, none, none⟩).effect = some Effect4.closeLong := by
  refine ⟨?_, ?_, rfl, rfl, rfl⟩
  · intro a
    cases a with
    | buy e => cases e <;> simp [sideStr, effectStr]
    | sell e => cases e <;> simp [sideStr, effectStr]
  · intro sd ef i oi sym q p cm c fq rq m hno
    have hA : (checkAction (some (.jstr sd)) (some (.jstr ef))).isOk = false := by
      cases hIs : (checkAction (some (.jstr sd)) (some (.jstr ef))).isOk with
      | false => rfl
      | true => exact absurd ((checkAction_jstr_isOk sd ef).mp hIs) hno
    refine ⟨?_, ?_, ?_⟩
    · rw [validateOrder_isOk_action]
      exact hA
    · rw [validateOrderState_isOk_action]
      exact hA
    · rw [validateFill_isOk_action]
      exact hA

/-- Witness: a `BUY`/`OPEN_SHORT` pairing is rejected by the Order
validator. -/
theorem side_effect_pairs_amended_witness :
    (validateOrder ⟨some (.jstr "BUY"), some (.jstr "OPEN_SHORT"),
      some (.jstr "o2"), some (.jstr "AAPL"), some (.jstr "LIMIT"),
      some (.jnum 1), none, none, none⟩).isOk = false :=
  (side_effect_pairs_amended.2.1 "BUY" "OPEN_SHORT" "o2" "x" "AAPL"
    1 2 3 4 5 6 7 (by simp)).1

/-- Claim C4: decoding a wire `price` object rebuilds an associative
container with exactly the wire object's keys and values, and encoding maps
it back to exactly those entries; concretely the two-entry example yields a
two-entry map whose lookup of `"BTCUSDT"` is `50000`; the long/short maps of
Position preserve their key sets the same way. -/
theorem map_fidelity :
    (Idx.parseMarketSnapshot
      ⟨[("BTCUSDT", 50000), ("ETHUSDT", 3000)], 1700000000000⟩).price.length
        = 2 ∧
    mapGet (Idx.parseMarketSnapshot
      ⟨[("BTCUSDT", 50000), ("ETHUSDT", 3000)], 1700000000000⟩).price
        "BTCUSDT" = some 50000 ∧
    (Idx.toWireMarketSnapshot (Idx.parseMarketSnapshot
      ⟨[("BTCUSDT", 50000), ("ETHUSDT", 3000)],
        1700000000000⟩)).price.map Prod.fst = ["BTCUSDT", "ETHUSDT"] ∧
    (∀ w : MarketSnapshotWire, (w.price.map Prod.fst).Nodup →
      (Idx.parseMarketSnapshot w).price = w.price ∧
      (Idx.toWireMarketSnapshot (Idx.parseMarketSnapshot w)).price =
        w.price) ∧
    (∀ w : PositionWire,
      (∀ l ∈ w.long, (l.map Prod.fst).Nodup) →
      (∀ l ∈ w.short, (l.map Prod.fst).Nodup) →
      (Serdes.decodePosition w).long.map (fun m => m.map Prod.fst) =
        w.long.map (fun l => l.map Prod.fst) ∧
      (Serdes.decodePosition w).short.map (fun m => m.map Prod.fst) =
        w.short.map (fun l => l.map Prod.fst) ∧
      (Serdes.encodePosition (Serdes.decodePosition w)).long.map
          (fun m => m.map Prod.fst) =
        w.long.map (fun l => l.map Prod.fst) ∧
      (Serdes.encodePosition (Serdes.decodePosition w)).short.map
          (fun m => m.map Prod.fst) =
        w.short.map (fun l => l.map Prod.fst)) := by
  refine ⟨by decide, by decide, by decide, ?_, ?_⟩
  · intro w h
    have hp : mapFromEntries w.price = w.price := mapFromEntries_eq_self h
    exact ⟨by simp [Idx.parseMarketSnapshot, hp],
      by simp [Idx.toWireMarketSnapshot, Idx.parseMarketSnapshot, hp]⟩
  · intro w hl hs
    have keyL : ∀ l : List (String × LongPositionWire), (l.map Prod.fst).Nodup →
        (mapFromEntries (l.map (fun e => (e.1, Serdes.decodeLongPosition e.2)))).map
          Prod.fst = l.map Prod.fst := by
      intro l hnd
      rw [mapFromEntries_eq_self (by rwa [map_fst_map_entry]),
        map_fst_map_entry]
    have keyS : ∀ l : List (String × ShortPositionWire), (l.map Prod.fst).Nodup →
        (mapFromEntries (l.map (fun e => (e.1, Serdes.decodeShortPosition e.2)))).map
          Prod.fst = l.map Prod.fst := by
      intro l hnd
      rw [mapFromEntries_eq_self (by rwa [map_fst_map_entry]),
        map_fst_map_entry]
    have hd1 : (Serdes.decodePosition w).long.map (fun m => m.map Prod.fst) =
        w.long.map (fun l => l.map Prod.fst) := by
      cases hLong : w.long with
      | none => simp [Serdes.decodePosition, hLong]
      | some l =>
          simp [Serdes.decodePosition, hLong, keyL l (hl l (by simp [hLong]))]
    have hd2 : (Serdes.decodePosition w).short.map (fun m => m.map Prod.fst) =
        w.short.map (fun l => l.map Prod.fst) := by
      cases hShort : w.short with
      | none => simp [Serdes.decodePosition, hShort]
      | some l =>
          simp [Serdes.decodePosition, hShort, keyS l (hs l (by simp [hShort]))]
    have he1 : (Serdes.encodePosition (Serdes.decodePosition w)).long.map
        (fun m => m.map Prod.fst) =
        (Serdes.decodePosition w).long.map (fun m => m.map Prod.fst) := by
      cases hp : (Serdes.decodePosition w).long with
      | none => simp [Serdes.encodePosition, hp]
      | some m => simp [Serdes.encodePosition, hp, Function.comp]
    have he2 : (Serdes.encodePosition (Serdes.decodePosition w)).short.map
        (fun m => m.map Prod.fst) =
        (Serdes.decodePosition w).short.map (fun m => m.map Prod.fst) := by
      cases hp : (Serdes.decodePosition w).short with
      | none => simp [Serdes.encodePosition, hp]
      | some m => simp [Serdes.encodePosition, hp, Function.comp]
    exact ⟨hd1, hd2, he1.trans hd1, he2.trans hd2⟩

/-- Witness: a concrete snapshot with distinct keys decodes to exactly its
wire entries, and a concrete one-symbol Position keeps its key set. -/
theorem map_fidelity_witness :
    (Idx.parseMarketSnapshot ⟨[("A", 1), ("B", 2)], 5⟩).price =
      [("A", 1), ("B", 2)] ∧
    (Serdes.decodePosition ⟨100, some [("A", ⟨1, 2, 3, [], 4⟩)], none, 0, 0,
      7⟩).long.map (fun m => m.map Prod.fst) = some ["A"] := by
  constructor
  · exact (map_fidelity.2.2.2.1 ⟨[("A", 1), ("B", 2)], 5⟩ (by decide)).1
  · exact (map_fidelity.2.2.2.2 ⟨100, some [("A", ⟨1, 2, 3, [], 4⟩)], none,
      0, 0, 7⟩ (by decide) (by decide)).1

/-- Claim C5: optional-field omission. For every optional field of every
entity, decoding a wire value lacking the field leaves the runtime field
absent (no default or sentinel), and encoding a runtime value lacking the
field emits no entry for it (a JS `undefined` property disappears from the
JSON wire object), in both implementations. -/
theorem optional_field_omission :
    (∀ (w : AssetWire) (f : AssetOptField), w.optAbsent f →
      (Serdes.decodeAsset w).optAbsent f ∧ (Idx.parseAsset w).optAbsent f) ∧
    (∀ (r : Asset) (f : AssetOptField), r.optAbsent f →
      (Serdes.encodeAsset r).optAbsent f ∧ (Idx.toWireAsset r).optAbsent f) ∧
    (∀ (w : MarketQuoteWire) (f : QuoteOptField), w.optAbsent f →
      (Serdes.decodeMarketQuote w).optAbsent f ∧
        (Idx.parseMarketQuote w).optAbsent f) ∧
    (∀ (r : MarketQuote) (f : QuoteOptField), r.optAbsent f →
      (Serdes.encodeMarketQuote r).optAbsent f ∧
        (Idx.toWireMarketQuote r).optAbsent f) ∧
    (∀ (w : OrderWire) (f : OrderOptField), w.optAbsent f →
      (Serdes.decodeOrder w).optAbsent f ∧ (Idx.parseOrder w).optAbsent f) ∧
    (∀ (r : Order) (f : OrderOptField), r.optAbsent f →
      (Serdes.encodeOrder r).optAbsent f ∧ (Idx.toWireOrder r).optAbsent f) ∧
    (∀ (w : PartialOrderWire) (f : PartialOptField), w.optAbsent f →
      (Serdes.decodePartialOrder w).optAbsent f ∧
        (Idx.parsePartialOrder w).optAbsent f) ∧
    (∀ (r : PartialOrderRT) (f : PartialOptField), r.optAbsent f →
      (Serdes.encodePartialOrder r).optAbsent f ∧
        (Idx.toWirePartialOrder r).optAbsent f) ∧
    (∀ (w : OrderStateWire) (f : OrderOptField), w.optAbsent f →
      (Serdes.decodeOrderState w).optAbsent f ∧
        (Idx.parseOrderState w).optAbsent f) ∧
    (∀ (r : OrderState) (f : OrderOptField), r.optAbsent f →
      (Serdes.encodeOrderState r).optAbsent f ∧
        (Idx.toWireOrderState r).optAbsent f) ∧
    (∀ (w : PositionWire) (f : PositionOptField), w.optAbsent f →
      (Serdes.decodePosition w).optAbsent f ∧
        (Idx.parsePosition w).optAbsent f) ∧
    (∀ (r : Position) (f : PositionOptField), r.optAbsent f →
      (Serdes.encodePosition r).optAbsent f ∧
        (Idx.toWirePosition r).optAbsent f) := by
  refine ⟨?_, ?_, ?_, ?_, ?_, ?_, ?_, ?_, ?_, ?_, ?_, ?_⟩ <;>
    (intro x f h
     cases f <;>
       simp_all [AssetWire.optAbsent, Asset.optAbsent,
         MarketQuoteWire.optAbsent, MarketQuote.optAbsent,
         OrderWire.optAbsent, Order.optAbsent, PartialOrderWire.optAbsent,
         PartialOrderRT.optAbsent, OrderStateWire.optAbsent,
         OrderState.optAbsent, PositionWire.optAbsent, Position.optAbsent,
         Serdes.decodeAsset, Serdes.encodeAsset, Idx.parseAsset,
         Idx.toWireAsset, Serdes.decodeMarketQuote, Serdes.encodeMarketQuote,
         Idx.parseMarketQuote, Idx.toWireMarketQuote, Serdes.decodeOrder,
         Serdes.encodeOrder, Idx.parseOrder, Idx.toWireOrder,
         Serdes.decodePartialOrder, Serdes.encodePartialOrder,
         Idx.parsePartialOrder, Idx.toWirePartialOrder,
         Serdes.decodeOrderState, Serdes.encodeOrderState,
         Idx.parseOrderState, Idx.toWireOrderState, Serdes.decodePosition,
         Serdes.encodePosition, Idx.parsePosition, Idx.toWirePosition,
         Idx.dateIfTruthy])

/-- Witness: an Asset wire object lacking `validUntil` decodes (both
implementations) to a runtime Asset lacking `validUntil`, and encoding that
runtime Asset emits no `validUntil` entry. -/
theorem optional_field_omission_witness :
    (Serdes.decodeAsset
      ⟨"AAA", none, none, none, "USD", none, none, some 5,
        none⟩).optAbsent .validUntil ∧
    (Idx.parseAsset
      ⟨"AAA", none, none, none, "USD", none, none, some 5,
        none⟩).optAbsent .validUntil ∧
    (Serdes.encodeAsset
      ⟨"AAA", none, none, none, "USD", none, none, some ⟨5⟩,
        none⟩).optAbsent .validUntil ∧
    (Idx.toWireAsset
      ⟨"AAA", none, none, none, "USD", none, none, some ⟨5⟩,
        none⟩).optAbsent .validUntil := by
  refine ⟨?_, ?_, ?_, ?_⟩
  · exact (optional_field_omission.1
      ⟨"AAA", none, none, none, "USD", none, none, some 5, none⟩
      .validUntil rfl).1
  · exact (optional_field_omission.1
      ⟨"AAA", none, none, none, "USD", none, none, some 5, none⟩
      .validUntil rfl).2
  · exact (optional_field_omission.2.1
      ⟨"AAA", none, none, none, "USD", none, none, some ⟨5⟩, none⟩
      .validUntil rfl).1
  · exact (optional_field_omission.2.1
      ⟨"AAA", none, none, none, "USD", none, none, some ⟨5⟩, none⟩
      .validUntil rfl).2
